import Mathlib

/-!
Shallow embedding of the CI-telemetry agent (src/agent.py, src/mcp_mock.py).

Machine-level conventions:
* Python `float` arithmetic on durations and rates is embedded as exact `Rat`
  arithmetic (the quantities are ratios and differences of parsed integers).
* Python exceptions are embedded as `Except Unit` / `Option` results.
* Network calls are embedded as oracle functions carried in an environment
  structure; the pure control flow around them is translated from the source.
-/

/-! ## JSON values (shape of `json.loads` results used by the code) -/

/-- A JSON value, as produced by `json.loads` / `resp.json()`. Numbers are
restricted to integers, which covers every field the code inspects. -/
inductive Json where
  | null : Json
  | bool : Bool → Json
  | num : Int → Json
  | str : String → Json
  | arr : List Json → Json
  | obj : List (String × Json) → Json
deriving Repr, Inhabited

/-- Python truthiness of a JSON value (`if x:`). -/
def jsonTruthy : Json → Bool
  | Json.null => false
  | Json.bool b => b
  | Json.num n => n != 0
  | Json.str s => s != ""
  | Json.arr [] => false
  | Json.arr (_ :: _) => true
  | Json.obj [] => false
  | Json.obj (_ :: _) => true

/-- `dict.get(key)` on the field list of a JSON object. -/
def lookupField (fs : List (String × Json)) (key : String) : Option Json :=
  match fs with
  | [] => none
  | (k, v) :: rest => if k = key then some v else lookupField rest key

/-- Python `j.get(key)`: returns the value (or `None`) on a dict, raises
`AttributeError` on any other value. -/
def jsonGet (j : Json) (key : String) : Except Unit (Option Json) :=
  match j with
  | Json.obj fs => Except.ok (lookupField fs key)
  | _ => Except.error ()

/-! ## Time parsing: `parse_iso` (src/agent.py lines 40-44)

`datetime.fromisoformat` (CPython < 3.11 grammar):
`YYYY-MM-DD[<sep>HH[:MM[:SS[.fff[fff]]]][(+|-)HH:MM[:SS[.ffffff]]]]`. -/

def digitVal (c : Char) : Option Nat :=
  if c.isDigit then some (c.toNat - 48) else none

/-- Parse exactly `n` leading digits, returning their value and the rest. -/
def parseNDigitsAux : Nat → Nat → List Char → Option (Nat × List Char)
  | 0, acc, cs => some (acc, cs)
  | n + 1, acc, c :: cs =>
    match digitVal c with
    | some d => parseNDigitsAux n (acc * 10 + d) cs
    | none => none
  | _ + 1, _, [] => none

def parseNDigits (n : Nat) (cs : List Char) : Option (Nat × List Char) :=
  parseNDigitsAux n 0 cs

def isLeapYear (y : Nat) : Bool := y % 4 = 0 ∧ (y % 100 ≠ 0 ∨ y % 400 = 0)

def daysInMonth (y m : Nat) : Nat :=
  match m with
  | 1 => 31 | 2 => if isLeapYear y then 29 else 28 | 3 => 31 | 4 => 30
  | 5 => 31 | 6 => 30 | 7 => 31 | 8 => 31 | 9 => 30 | 10 => 31
  | 11 => 30 | 12 => 31 | _ => 0

/-- Days in all years before proleptic-Gregorian year `y` (year ≥ 1). -/
def daysBeforeYear (y : Nat) : Nat :=
  (y - 1) * 365 + (y - 1) / 4 + (y - 1) / 400 - (y - 1) / 100

/-- Days in the months of year `y` strictly before month `m`. -/
def daysBeforeMonth (y m : Nat) : Nat :=
  (List.range (m - 1)).foldl (fun acc i => acc + daysInMonth y (i + 1)) 0

/-- 0-based ordinal day number of a calendar date. -/
def dateOrdinal (y m d : Nat) : Nat :=
  daysBeforeYear y + daysBeforeMonth y m + (d - 1)

/-- `_parse_isoformat_date`: exactly `YYYY-MM-DD`, with range validation as in
the `datetime` constructor (MINYEAR = 1). -/
def parseIsoDate (cs : List Char) : Option (Nat × Nat × Nat) :=
  if cs.length = 10 then
    match parseNDigits 4 cs with
    | some (y, '-' :: r1) =>
      match parseNDigits 2 r1 with
      | some (m, '-' :: r2) =>
        match parseNDigits 2 r2 with
        | some (d, []) =>
          if 1 ≤ y ∧ 1 ≤ m ∧ m ≤ 12 ∧ 1 ≤ d ∧ d ≤ daysInMonth y m then
            some (y, m, d)
          else none
        | _ => none
      | _ => none
    | _ => none
  else none

/-- `_parse_hh_mm_ss_ff`: `HH[:MM[:SS[.fff[fff]]]]`, whole input consumed.
Returns (hour, minute, second, microsecond) without range validation. -/
def parseHMSF (cs : List Char) : Option (Nat × Nat × Nat × Nat) :=
  match parseNDigits 2 cs with
  | some (h, []) => some (h, 0, 0, 0)
  | some (h, ':' :: r1) =>
    match parseNDigits 2 r1 with
    | some (m, []) => some (h, m, 0, 0)
    | some (m, ':' :: r2) =>
      match parseNDigits 2 r2 with
      | some (s, []) => some (h, m, s, 0)
      | some (s, '.' :: fr) =>
        if fr.length = 3 then
          match parseNDigits 3 fr with
          | some (f, []) => some (h, m, s, f * 1000)
          | _ => none
        else if fr.length = 6 then
          match parseNDigits 6 fr with
          | some (f, []) => some (h, m, s, f)
          | _ => none
        else none
      | _ => none
    | _ => none
  | _ => none

/-- `_parse_isoformat_time`: time part plus optional UTC-offset suffix.
Returns (hour, minute, second, microsecond, offset in seconds if aware);
time components range-validated by the `time` constructor, the offset
validated by `timezone` to lie strictly between -24h and 24h. -/
def parseIsoTime (cs : List Char) : Option (Nat × Nat × Nat × Nat × Option Rat) :=
  if cs.length < 2 then none
  else
    let idx : Option Nat :=
      match cs.findIdx? (fun c => c = '-') with
      | some i => some i
      | none => cs.findIdx? (fun c => c = '+')
    let parts : Option ((Nat × Nat × Nat × Nat) × Option Rat) :=
      match idx with
      | none =>
        match parseHMSF cs with
        | some t => some (t, none)
        | none => none
      | some i =>
        let timestr := cs.take i
        let tzstr := cs.drop (i + 1)
        let sign : Rat := if cs.getD i ' ' = '-' then -1 else 1
        if tzstr.length = 5 ∨ tzstr.length = 8 ∨ tzstr.length = 15 then
          match parseHMSF timestr, parseHMSF tzstr with
          | some t, some (th, tm, ts, tf) =>
            let off : Rat :=
              sign * ((th : Rat) * 3600 + (tm : Rat) * 60 + (ts : Rat) +
                (tf : Rat) / 1000000)
            if -86400 < off ∧ off < 86400 then some (t, some off) else none
          | _, _ => none
        else none
    match parts with
    | some ((h, m, s, f), off) =>
      if h ≤ 23 ∧ m ≤ 59 ∧ s ≤ 59 then some (h, m, s, f, off) else none
    | none => none

/-- A parsed `datetime`: whether it is timezone-aware, and its position on the
time line in seconds (for aware values, normalized to UTC). Naive and aware
values live on incomparable time lines in Python: subtracting them raises. -/
structure PyDatetime where
  aware : Bool
  seconds : Rat
deriving Repr, DecidableEq, Inhabited

/-- `datetime.fromisoformat` (CPython < 3.11): date from the first 10
characters, one separator character (any), then the time part. -/
def fromisoformat (cs : List Char) : Option PyDatetime :=
  match parseIsoDate (cs.take 10) with
  | none => none
  | some (y, m, d) =>
    let tstr := cs.drop 11
    if tstr = [] then
      if cs.length ≤ 10 then
        some { aware := false, seconds := (dateOrdinal y m d : Rat) * 86400 }
      else
        -- length 11: a separator with an empty time part parses as midnight
        some { aware := false, seconds := (dateOrdinal y m d : Rat) * 86400 }
    else
      match parseIsoTime tstr with
      | none => none
      | some (h, mi, s, f, off) =>
        let base : Rat :=
          (dateOrdinal y m d : Rat) * 86400 + (h : Rat) * 3600 +
            (mi : Rat) * 60 + (s : Rat) + (f : Rat) / 1000000
        match off with
        | none => some { aware := false, seconds := base }
        | some o => some { aware := true, seconds := base - o }

/-- `parse_iso` (src/agent.py): replace a trailing `Z` by `+00:00`, then
`datetime.fromisoformat`; `none` embeds a raised `ValueError`. -/
def parse_iso (s : String) : Option PyDatetime :=
  let cs := s.data
  let cs :=
    if cs.getLast? = some 'Z' then cs.dropLast ++ ['+', '0', '0', ':', '0', '0']
    else cs
  fromisoformat cs

/-- `a - b` on datetimes, in seconds: raises `TypeError` (here `none`) when
one operand is aware and the other naive. -/
def dtSub (a b : PyDatetime) : Option Rat :=
  if a.aware = b.aware then some (a.seconds - b.seconds) else none

/-! ## Run records and metrics (src/agent.py lines 61-104) -/

/-- One workflow-run record, with the fields `compute_metrics` reads via
`r.get(...)`; each is optional, mirroring an absent JSON key or `null`. -/
structure RunRecord where
  id : Option Int
  name : Option String
  conclusion : Option String
  created_at : Option String
  updated_at : Option String
  html_url : Option String
deriving Repr, DecidableEq, Inhabited

/-- The projection appended to `recent_failures` for a failing run. -/
structure FailureEntry where
  id : Option Int
  name : Option String
  conclusion : Option String
  html_url : Option String
deriving Repr, DecidableEq, Inhabited

/-- The aggregate metrics dictionary returned by `compute_metrics`. -/
structure Metrics where
  total_runs : Nat
  successes : Nat
  failures : Nat
  success_rate : Option Rat
  avg_duration_seconds : Option Rat
  recent_failures : List FailureEntry
deriving Repr, DecidableEq, Inhabited

/-- The duration computation of the loop body (src/agent.py lines 76-84):
both timestamps present and truthy, both parses succeed, the subtraction
succeeds (same awareness), and the result is ≥ 0; any failure is caught and
the record contributes no duration. -/
def runDuration (r : RunRecord) : Option Rat :=
  match r.created_at, r.updated_at with
  | some created, some updated =>
    if created ≠ "" ∧ updated ≠ "" then
      match parse_iso updated, parse_iso created with
      | some du, some dc =>
        match dtSub du dc with
        | some dur => if 0 ≤ dur then some dur else none
        | none => none
      | _, _ => none
    else none
  | _, _ => none

/-- Loop state of `compute_metrics`. -/
structure MState where
  successes : Nat
  failures : Nat
  durations : List Rat
  recent_failures : List FailureEntry
deriving Repr, DecidableEq, Inhabited

/-- One iteration of the `for r in runs` loop of `compute_metrics`. -/
def stepRun (st : MState) (r : RunRecord) : MState :=
  let conclusion := r.conclusion
  let st1 :=
    if conclusion = some "success" then
      { st with successes := st.successes + 1 }
    else if conclusion = some "failure" ∨ conclusion = some "cancelled" ∨
        conclusion = some "timed_out" then
      { st with failures := st.failures + 1 }
    else st
  let st2 :=
    match runDuration r with
    | some dur => { st1 with durations := st1.durations ++ [dur] }
    | none => st1
  if conclusion = some "failure" ∨ conclusion = some "timed_out" then
    { st2 with recent_failures := st2.recent_failures ++
        [{ id := r.id, name := r.name, conclusion := conclusion,
           html_url := r.html_url }] }
  else st2

/-- `compute_metrics` (src/agent.py lines 61-104). -/
def compute_metrics (runs : List RunRecord) : Metrics :=
  let total := runs.length
  let st := runs.foldl stepRun ⟨0, 0, [], []⟩
  { total_runs := total
    successes := st.successes
    failures := st.failures
    success_rate :=
      if total ≠ 0 then some ((st.successes : Rat) / (total : Rat)) else none
    avg_duration_seconds :=
      if st.durations ≠ [] then
        some (st.durations.sum / (st.durations.length : Rat))
      else none
    recent_failures := st.recent_failures.take 10 }

/-! ## Local heuristic analysis (src/agent.py lines 107-138) -/

/-- The analysis dictionary returned by `local_analysis`. -/
structure Analysis where
  status : String
  recommendations : List String
  metrics : Metrics
deriving Repr, DecidableEq, Inhabited

def recNoData : String := "No workflow runs found for the repository."

def recUnhealthy : String :=
  "CI success rate below 60% — investigate flaky or failing tests."

def recDegraded : String :=
  "CI success rate between 60% and 90% — look for intermittent failures."

def recHealthy : String := "CI success rate above 90%."

def recSlow : String :=
  "Average workflow duration is high (>20 minutes). Consider speeding up or splitting jobs."

/-- `local_analysis` (src/agent.py lines 107-138); status starts as
"unknown" and the branches update it exactly as the source does. -/
def local_analysis (metrics : Metrics) : Analysis :=
  let total := metrics.total_runs
  if total = 0 then
    { status := "no-data", recommendations := [recNoData], metrics := metrics }
  else
    let sr : String × List String :=
      match metrics.success_rate with
      | some q =>
        if q < 0.6 then ("unhealthy", [recUnhealthy])
        else if q < 0.9 then ("degraded", [recDegraded])
        else ("healthy", [recHealthy])
      | none => ("unknown", [])
    let recs :=
      match metrics.avg_duration_seconds with
      | some d => if d > 20 * 60 then sr.2 ++ [recSlow] else sr.2
      | none => sr.2
    { status := sr.1, recommendations := recs, metrics := metrics }

/-! ## Endpoint resolution (src/agent.py lines 237-259) -/

/-- Python truthiness of an optional string (`os.getenv` result or argparse
value): `None` and `""` are falsy. -/
def pyTruthy : Option String → Bool
  | none => false
  | some s => if s = "" then false else true

/-- Python `a or b` on optional strings. -/
def pyOr (a b : Option String) : Option String :=
  if pyTruthy a then a else b

def defaultMcpUrl : String := "http://127.0.0.1:8080"

/-- The MCP-URL precedence chain of `main` (src/agent.py lines 243-259).
`discovered` is the result of the guarded `discover_mcp_from_repo` call:
`none` covers both "nothing found" and a raised exception, which `main`
catches and ignores. -/
def resolve_mcp_url (cli gh_env generic_env discovered : Option String) : String :=
  let m1 : Option String := if pyTruthy cli then cli else pyOr gh_env generic_env
  let m2 : Option String :=
    if pyTruthy m1 then m1
    else if pyTruthy discovered then discovered else m1
  let m3 : Option String := if pyTruthy m2 then m2 else some defaultMcpUrl
  m3.getD ""

/-! ## HTTP oracles -/

/-- An HTTP response as the code observes it: status code and body text. -/
structure HttpResp where
  status : Nat
  body : String
deriving Repr, DecidableEq, Inhabited

/-! ## Forwarder: `try_send_to_mcp` (src/agent.py lines 141-164) -/

/-- Environment for the forwarder: the outcome of `requests.post` on each
endpoint (`error` = a raised `RequestException`), and the behaviour of
`resp.json()` on a body text. -/
structure ForwardEnv where
  post : String → Except Unit HttpResp
  jsonParse : String → Except Unit Json

def mcp_candidates : List String :=
  ["/predict", "/analyze", "/v1/predict", "/mcp/predict", ""]

/-- Python `s.rstrip("/")`. -/
def rstripSlash (s : String) : String :=
  String.mk ((s.data.reverse.dropWhile (fun c => c = '/')).reverse)

/-- Body of a successful (status 200) forwarding attempt: `resp.json()`,
or the raw text wrapped in a dict when JSON parsing fails. -/
def respPayload (env : ForwardEnv) (resp : HttpResp) : Json :=
  match env.jsonParse resp.body with
  | Except.ok j => j
  | Except.error _ => Json.obj [("raw_text", Json.str resp.body)]

/-- The `for suffix in candidates` loop of `try_send_to_mcp`, also returning
the list of endpoints actually attempted, in order. -/
def trySendGo (env : ForwardEnv) (base : String) :
    List String → Option Json × List String
  | [] => (none, [])
  | suffix :: rest =>
    let endpoint := rstripSlash base ++ suffix
    match env.post endpoint with
    | Except.error _ =>
      let r := trySendGo env base rest
      (r.1, endpoint :: r.2)
    | Except.ok resp =>
      if resp.status = 200 then (some (respPayload env resp), [endpoint])
      else
        let r := trySendGo env base rest
        (r.1, endpoint :: r.2)

/-- `try_send_to_mcp` (src/agent.py lines 141-164), returning the result and
the attempted endpoints. -/
def try_send_to_mcp (env : ForwardEnv) (mcp_url : String) :
    Option Json × List String :=
  trySendGo env mcp_url mcp_candidates

/-! ## Repository-level discovery (src/agent.py lines 167-219) -/

/-- Environment for `discover_mcp_from_repo`: outcomes of the two
`requests.get` calls, of JSON parsing, and of base64-plus-utf8 decoding. -/
structure DiscoveryEnv where
  contentsResult : Except Unit HttpResp
  rawResult : Except Unit HttpResp
  jsonParse : String → Except Unit Json
  b64decode : String → Except Unit String

/-- The Contents-API attempt (src/agent.py lines 181-201): any exception is
caught (outer or inner `except`), yielding no URL. -/
def contentsAttempt (env : DiscoveryEnv) : Option Json :=
  match env.contentsResult with
  | Except.error _ => none
  | Except.ok r =>
    if r.status = 200 then
      match env.jsonParse r.body with
      | Except.error _ => none
      | Except.ok j =>
        match jsonGet j "content" with
        | Except.error _ => none
        | Except.ok none => none
        | Except.ok (some cb) =>
          if jsonTruthy cb then
            match cb with
            | Json.str s =>
              match env.b64decode s with
              | Except.error _ => none
              | Except.ok raw =>
                match env.jsonParse raw with
                | Except.error _ => none
                | Except.ok cfg =>
                  match jsonGet cfg "mcp_url" with
                  | Except.error _ => none
                  | Except.ok none => none
                  | Except.ok (some mcp) =>
                    if jsonTruthy mcp then some mcp else none
            | _ => none
          else none
    else none

/-- The raw.githubusercontent.com fallback (src/agent.py lines 204-217). -/
def rawAttempt (env : DiscoveryEnv) : Option Json :=
  match env.rawResult with
  | Except.error _ => none
  | Except.ok r2 =>
    if r2.status = 200 then
      match env.jsonParse r2.body with
      | Except.error _ => none
      | Except.ok cfg =>
        match jsonGet cfg "mcp_url" with
        | Except.error _ => none
        | Except.ok none => none
        | Except.ok (some mcp) => if jsonTruthy mcp then some mcp else none
    else none

/-- `discover_mcp_from_repo` (src/agent.py lines 167-219): result plus the
network fetches issued, in order. The Contents-API request is always issued;
the raw fetch is issued exactly when the first attempt returned nothing. -/
def discover_mcp_from_repo (env : DiscoveryEnv) : Option Json × List String :=
  match contentsAttempt env with
  | some mcp => (some mcp, ["contents"])
  | none => (rawAttempt env, ["contents", "raw"])

/-! ## Mock MCP server (src/mcp_mock.py) -/

def mock_paths : List String :=
  ["/predict", "/analyze", "/v1/predict", "/mcp/predict", "/"]

/-! ### `urllib.parse.urlparse(self.path).path` (src/mcp_mock.py line 26)

`urlparse` on a `str`: remove the unsafe bytes, split off a scheme and an
authority (raising `ValueError` on mismatched brackets in the authority),
drop the fragment and then the query, and split `;parameters` off the last
path segment when the scheme uses parameters. `_checknetloc` is omitted: it
can only raise for an authority containing characters beyond Latin-1 whose
NFKC normalization introduces a separator, and `BaseHTTPRequestHandler`
decodes the request line as latin-1, so no request target reaching the
handler triggers it. The 3.11-specific validation of the content of a
bracketed (IPv6) host is not modelled either; a mismatched bracket raises on
every version. -/

/-- The control bytes `urlsplit` removes before parsing
(`_UNSAFE_URL_BYTES_TO_REMOVE`). -/
def stripUnsafe (cs : List Char) : List Char :=
  cs.filter (fun c => !(c == '\t' || c == '\r' || c == '\n'))

/-- Membership in `scheme_chars`: ASCII letters, digits, `+`, `-`, `.`. -/
def isSchemeChar (c : Char) : Bool :=
  c.isAlpha || c.isDigit || c == '+' || c == '-' || c == '.'

/-- The schemes whose URLs carry `;parameters`
(`urllib.parse.uses_params`). -/
def uses_params : List String :=
  ["", "ftp", "hdl", "prospero", "http", "imap", "https", "shttp", "rtsp",
   "rtsps", "rtspu", "sip", "sips", "mms", "sftp", "tel"]

/-- `urlsplit`, restricted to the two fields `urlparse` needs to produce the
path: the lowercased scheme and the path component (authority, fragment and
query removed). `error` embeds the `ValueError` raised on a bracket mismatch
in the authority. -/
def urlsplitSchemePath (cs0 : List Char) : Except Unit (String × List Char) :=
  let cs := stripUnsafe cs0
  -- scheme: a leading ASCII letter followed by scheme characters, then `:`
  let sp : String × List Char :=
    match cs.findIdx? (fun c => c = ':') with
    | some i =>
      if 0 < i ∧ (cs.headD ' ').isAlpha ∧ ((cs.take i).drop 1).all isSchemeChar then
        (String.mk ((cs.take i).map Char.toLower), cs.drop (i + 1))
      else ("", cs)
    | none => ("", cs)
  let url1 := sp.2
  -- authority: `_splitnetloc` when the remainder starts with `//`
  let nl : List Char × List Char :=
    if url1.take 2 = ['/', '/'] then
      let rest := url1.drop 2
      let delim :=
        match rest.findIdx? (fun c => c = '/' ∨ c = '?' ∨ c = '#') with
        | some d => d
        | none => rest.length
      (rest.take delim, rest.drop delim)
    else ([], url1)
  if ('[' ∈ nl.1 ∧ ']' ∉ nl.1) ∨ (']' ∈ nl.1 ∧ '[' ∉ nl.1) then
    Except.error ()
  else
    let url2 :=
      match nl.2.findIdx? (fun c => c = '#') with
      | some i => nl.2.take i
      | none => nl.2
    let url3 :=
      match url2.findIdx? (fun c => c = '?') with
      | some i => url2.take i
      | none => url2
    Except.ok (sp.1, url3)

/-- `_splitparams`: split `;parameters` off the last path segment (the part
kept is everything before the first `;` at or after the last `/`). -/
def splitparams (url : List Char) : List Char :=
  if '/' ∈ url then
    let j := url.length - 1 - ((url.reverse.findIdx? (fun c => c = '/')).getD 0)
    match (url.drop j).findIdx? (fun c => c = ';') with
    | some i => url.take (j + i)
    | none => url
  else
    match url.findIdx? (fun c => c = ';') with
    | some i => url.take i
    | none => url

/-- The path component `urlparse(target).path` as `do_POST` observes it;
`error` embeds a `ValueError` escaping `urlparse`. -/
def urlparsePath (s : String) : Except Unit String :=
  match urlsplitSchemePath s.data with
  | Except.error _ => Except.error ()
  | Except.ok (scheme, url) =>
    if scheme ∈ uses_params ∧ ';' ∈ url then
      Except.ok (String.mk (splitparams url))
    else Except.ok (String.mk url)

/-- `metrics.get("total_runs") if metrics else None`: raises
`AttributeError` when `metrics` is truthy but not a dict. -/
def metricsTotal : Option Json → Except Unit (Option Json)
  | none => Except.ok none
  | some m =>
    if jsonTruthy m then
      match m with
      | Json.obj fs => Except.ok (lookupField fs "total_runs")
      | _ => Except.error ()
    else Except.ok none

/-- `"no-issues" if (total and total > 0) else "no-data"`: `total > 0`
raises `TypeError` when `total` is truthy but not a number or boolean. -/
def predictionOf : Option Json → Except Unit String
  | none => Except.ok "no-data"
  | some t =>
    if jsonTruthy t then
      match t with
      | Json.num n => Except.ok (if n > 0 then "no-issues" else "no-data")
      | Json.bool _ => Except.ok "no-issues"
      | _ => Except.error ()
    else Except.ok "no-data"

/-- `json.loads(raw)` with the `raw` fallback dict of `do_POST`: the payload
value the handler works on (`.error` carries the decoded request text). -/
def payloadOf : Except String Json → Json
  | Except.ok j => j
  | Except.error raw => Json.obj [("raw", Json.str raw)]

/-- The 200 response body built by `Handler.do_POST`. -/
def mockOkBody (total : Option Json) (pred : String) : Json :=
  Json.obj [("status", Json.str "ok"),
    ("analysis", Json.obj [("received_total_runs", total.getD Json.null),
      ("prediction", Json.str pred)])]

/-- `Handler.do_POST` (src/mcp_mock.py lines 25-50). `parseResult` is the
outcome of `json.loads` on the request body (`.error` carries the decoded
text used for the `raw` fallback dict); `.error ()` in the result is an
exception escaping the handler (from `urlparse` or from the analysis
expressions), so no response is sent. -/
def mock_do_POST (path : String) (parseResult : Except String Json) :
    Except Unit (Nat × Json) :=
  match urlparsePath path with
  | Except.error _ => Except.error ()
  | Except.ok p =>
    if p ∈ mock_paths then
      let payload : Json := payloadOf parseResult
      let metrics : Option Json :=
        match payload with
        | Json.obj fs => lookupField fs "metrics"
        | _ => none
      match metricsTotal metrics with
      | Except.error _ => Except.error ()
      | Except.ok total =>
        match predictionOf total with
        | Except.error _ => Except.error ()
        | Except.ok pred => Except.ok (200, mockOkBody total pred)
    else
      Except.ok (404, Json.obj [("error", Json.str "unknown endpoint")])

/-- `Handler.do_GET` (src/mcp_mock.py lines 52-53): always a 200 liveness
response, on every path. -/
def mock_do_GET (_path : String) : Nat × Json :=
  (200, Json.obj [("info", Json.str "mcp-mock running")])

/-! ## Predicates used in the statements -/

/-- The conclusion test incrementing `successes`. -/
def succB (r : RunRecord) : Bool := decide (r.conclusion = some "success")

/-- The conclusion test incrementing `failures`. -/
def failB (r : RunRecord) : Bool :=
  decide (r.conclusion = some "failure" ∨ r.conclusion = some "cancelled" ∨
    r.conclusion = some "timed_out")

/-- The conclusion test selecting a run for `recent_failures`. -/
def recentB (r : RunRecord) : Bool :=
  decide (r.conclusion = some "failure" ∨ r.conclusion = some "timed_out")

/-- The projection stored in `recent_failures`. -/
def failProj (r : RunRecord) : FailureEntry :=
  { id := r.id, name := r.name, conclusion := r.conclusion,
    html_url := r.html_url }

/-- Whether a forwarding attempt on endpoint `e` gets an HTTP 200. -/
def ok200 (env : ForwardEnv) (e : String) : Bool :=
  match env.post e with
  | Except.ok r => decide (r.status = 200)
  | Except.error _ => false

/-- The value `try_send_to_mcp` returns for a 200 response on endpoint `e`. -/
def postBody (env : ForwardEnv) (e : String) : Option Json :=
  match env.post e with
  | Except.ok r => some (respPayload env r)
  | Except.error _ => none

/-- Payloads on which `do_POST` reaches `_respond` instead of raising: the
`metrics` field, when truthy, is an object, and its `total_runs` field, when
truthy, is a number or boolean. -/
def benignPayload (payload : Json) : Bool :=
  match payload with
  | Json.obj fs =>
    match lookupField fs "metrics" with
    | some m =>
      if jsonTruthy m then
        match m with
        | Json.obj ms =>
          match lookupField ms "total_runs" with
          | some t =>
            if jsonTruthy t then
              match t with
              | Json.num _ => true
              | Json.bool _ => true
              | _ => false
            else true
          | none => true
        | _ => false
      else true
    | none => true
  | _ => true

/-! ## Loop characterization lemmas -/

theorem stepRun_eq (st : MState) (r : RunRecord) :
    stepRun st r =
      { successes := st.successes + (if succB r then 1 else 0)
        failures := st.failures + (if failB r then 1 else 0)
        durations := st.durations ++ (runDuration r).toList
        recent_failures := st.recent_failures ++
          (if recentB r then [failProj r] else []) } := by
  unfold stepRun succB failB recentB failProj
  by_cases h1 : r.conclusion = some "success"
  · have h2 : ¬(r.conclusion = some "failure" ∨ r.conclusion = some "cancelled" ∨
        r.conclusion = some "timed_out") := by simp [h1]
    have h3 : ¬(r.conclusion = some "failure" ∨ r.conclusion = some "timed_out") := by
      simp [h1]
    cases hd : runDuration r <;> simp [h1, h2, h3, hd]
  · by_cases h3 : r.conclusion = some "failure" ∨ r.conclusion = some "timed_out"
    · have h2 : r.conclusion = some "failure" ∨ r.conclusion = some "cancelled" ∨
          r.conclusion = some "timed_out" := by
        rcases h3 with h | h
        · exact Or.inl h
        · exact Or.inr (Or.inr h)
      cases hd : runDuration r <;> simp [h1, h2, h3, hd]
    · by_cases h2 : r.conclusion = some "failure" ∨ r.conclusion = some "cancelled" ∨
          r.conclusion = some "timed_out"
      · cases hd : runDuration r <;> simp [h1, h2, h3, hd]
      · cases hd : runDuration r <;> simp [h1, h2, h3, hd]

theorem foldl_stepRun (runs : List RunRecord) (st : MState) :
    runs.foldl stepRun st =
      { successes := st.successes + runs.countP succB
        failures := st.failures + runs.countP failB
        durations := st.durations ++ runs.filterMap runDuration
        recent_failures := st.recent_failures ++
          (runs.filter recentB).map failProj } := by
  induction runs generalizing st with
  | nil => simp
  | cons r rs ih =>
    rw [List.foldl_cons, ih, stepRun_eq]
    by_cases hs : succB r <;> by_cases hf : failB r <;> by_cases hr : recentB r <;>
      cases hd : runDuration r <;>
        simp [List.countP_cons, List.filterMap_cons, List.filter_cons,
          hs, hf, hr, hd] <;> omega

theorem countP_add_countP_le_length {α : Type} (p q : α → Bool)
    (h : ∀ a, ¬(p a = true ∧ q a = true)) (l : List α) :
    l.countP p + l.countP q ≤ l.length := by
  induction l with
  | nil => simp
  | cons a l ih =>
    have := h a
    by_cases hp : p a <;> by_cases hq : q a <;>
      simp [List.countP_cons, hp, hq] at * <;> omega

/-- C1: `compute_metrics` returns `total_runs` equal to the length of the
input list, `successes` counting exactly the records with conclusion
`"success"`, `failures` counting exactly the records with conclusion
`"failure"`, `"cancelled"` or `"timed_out"` (any other conclusion, including
a missing one, increments neither counter); hence
`successes + failures ≤ total_runs`, and `success_rate` equals
`successes / total_runs` and lies in `[0, 1]` when `total_runs > 0`, and is
absent when `total_runs = 0`. -/
theorem claim_C1 (runs : List RunRecord) :
    (compute_metrics runs).total_runs = runs.length ∧
    (compute_metrics runs).successes =
      runs.countP (fun r => decide (r.conclusion = some "success")) ∧
    (compute_metrics runs).failures =
      runs.countP (fun r => decide (r.conclusion = some "failure" ∨
        r.conclusion = some "cancelled" ∨ r.conclusion = some "timed_out")) ∧
    (compute_metrics runs).successes + (compute_metrics runs).failures ≤
      (compute_metrics runs).total_runs ∧
    ((compute_metrics runs).total_runs = 0 →
      (compute_metrics runs).success_rate = none) ∧
    (0 < (compute_metrics runs).total_runs →
      (compute_metrics runs).success_rate =
        some (((compute_metrics runs).successes : Rat) /
          ((compute_metrics runs).total_runs : Rat)) ∧
      ∀ q, (compute_metrics runs).success_rate = some q → 0 ≤ q ∧ q ≤ 1) := by
  have hfold := foldl_stepRun runs ⟨0, 0, [], []⟩
  have hsucc : (compute_metrics runs).successes = runs.countP succB := by
    simp [compute_metrics, hfold]
  have hfail : (compute_metrics runs).failures = runs.countP failB := by
    simp [compute_metrics, hfold]
  have htot : (compute_metrics runs).total_runs = runs.length := by
    simp [compute_metrics]
  have hdisj : ∀ r : RunRecord, ¬(succB r = true ∧ failB r = true) := by
    intro r ⟨h1, h2⟩
    simp only [succB, failB, decide_eq_true_eq] at h1 h2
    rw [h1] at h2
    simp at h2
  have hle : (compute_metrics runs).successes + (compute_metrics runs).failures ≤
      (compute_metrics runs).total_runs := by
    rw [hsucc, hfail, htot]
    exact countP_add_countP_le_length succB failB hdisj runs
  refine ⟨htot, by rw [hsucc]; rfl, by rw [hfail]; rfl, hle, ?_, ?_⟩
  · intro h0
    rw [htot] at h0
    simp [compute_metrics, h0]
  · intro hpos
    rw [htot] at hpos
    have hne : runs.length ≠ 0 := Nat.pos_iff_ne_zero.mp hpos
    have hrate : (compute_metrics runs).success_rate =
        some (((compute_metrics runs).successes : Rat) /
          ((compute_metrics runs).total_runs : Rat)) := by
      simp [compute_metrics, hne, hfold]
    refine ⟨hrate, ?_⟩
    intro q hq
    rw [hrate] at hq
    have hq2 : q = ((compute_metrics runs).successes : Rat) /
        ((compute_metrics runs).total_runs : Rat) := by
      exact (Option.some.injEq _ _ ▸ hq).symm
    have hsle : (compute_metrics runs).successes ≤ (compute_metrics runs).total_runs := by
      rw [hsucc, htot]
      exact List.countP_le_length _
    have htpos : (0 : Rat) < ((compute_metrics runs).total_runs : Rat) := by
      rw [htot]
      exact_mod_cast hpos
    constructor
    · rw [hq2]
      positivity
    · rw [hq2]
      rw [div_le_one htpos]
      exact_mod_cast hsle

/-- C1 witness: a concrete three-run list (one success, one failure, one
in-progress run) instantiating the theorem with its hypotheses discharged. -/
theorem claim_C1_witness :
    0 < (compute_metrics
      [{ id := some 1, name := some "a", conclusion := some "success",
         created_at := none, updated_at := none, html_url := none },
       { id := some 2, name := some "b", conclusion := some "failure",
         created_at := none, updated_at := none, html_url := none },
       { id := some 3, name := some "c", conclusion := none,
         created_at := none, updated_at := none, html_url := none }]).total_runs ∧
    (compute_metrics
      [{ id := some 1, name := some "a", conclusion := some "success",
         created_at := none, updated_at := none, html_url := none },
       { id := some 2, name := some "b", conclusion := some "failure",
         created_at := none, updated_at := none, html_url := none },
       { id := some 3, name := some "c", conclusion := none,
         created_at := none, updated_at := none, html_url := none }]).success_rate =
      some ((1 : Rat) / 3) := by
  constructor
  · decide
  · have h := (claim_C1
      [{ id := some 1, name := some "a", conclusion := some "success",
         created_at := none, updated_at := none, html_url := none },
       { id := some 2, name := some "b", conclusion := some "failure",
         created_at := none, updated_at := none, html_url := none },
       { id := some 3, name := some "c", conclusion := none,
         created_at := none, updated_at := none, html_url := none }]).2.2.2.2.2
      (by decide)
    rw [h.1]
    congr 1

/-- C5: `recent_failures` consists of exactly the projections
(id, name, conclusion, html_url) of the runs whose conclusion is `"failure"`
or `"timed_out"` (cancelled runs are excluded), in the original relative
order, truncated to the first 10, so its length is always at most 10. -/
theorem claim_C5 (runs : List RunRecord) :
    (compute_metrics runs).recent_failures =
      ((runs.filter recentB).map failProj).take 10 ∧
    (compute_metrics runs).recent_failures.length ≤ 10 ∧
    (∀ e ∈ (compute_metrics runs).recent_failures,
      e.conclusion = some "failure" ∨ e.conclusion = some "timed_out") := by
  have hfold := foldl_stepRun runs ⟨0, 0, [], []⟩
  have h1 : (compute_metrics runs).recent_failures =
      ((runs.filter recentB).map failProj).take 10 := by
    simp [compute_metrics, hfold]
  refine ⟨h1, ?_, ?_⟩
  · rw [h1]
    exact List.length_take_le 10 _
  · intro e he
    rw [h1] at he
    have hmem := List.mem_of_mem_take he
    obtain ⟨r, hr, hre⟩ := List.mem_map.mp hmem
    have hrb : recentB r = true := List.of_mem_filter hr
    simp only [recentB, decide_eq_true_eq] at hrb
    have : e.conclusion = r.conclusion := by rw [← hre]; rfl
    rw [this]
    exact hrb

/-- C5 witness: a concrete list with one success, one failure and one
cancelled run; the failure alone is projected into `recent_failures`. -/
theorem claim_C5_witness :
    (compute_metrics
      [{ id := some 1, name := some "a", conclusion := some "success",
         created_at := none, updated_at := none, html_url := none },
       { id := some 2, name := some "b", conclusion := some "failure",
         created_at := none, updated_at := none, html_url := some "u2" },
       { id := some 3, name := some "c", conclusion := some "cancelled",
         created_at := none, updated_at := none, html_url := none }]).recent_failures =
      [{ id := some 2, name := some "b", conclusion := some "failure",
         html_url := some "u2" }] ∧
    (({ id := some 2, name := some "b", conclusion := some "failure",
        html_url := some "u2" } : FailureEntry).conclusion = some "failure" ∨
     ({ id := some 2, name := some "b", conclusion := some "failure",
        html_url := some "u2" } : FailureEntry).conclusion = some "timed_out") := by
  constructor
  · decide
  · exact (claim_C5
      [{ id := some 1, name := some "a", conclusion := some "success",
         created_at := none, updated_at := none, html_url := none },
       { id := some 2, name := some "b", conclusion := some "failure",
         created_at := none, updated_at := none, html_url := some "u2" },
       { id := some 3, name := some "c", conclusion := some "cancelled",
         created_at := none, updated_at := none, html_url := none }]).2.2
      _ (by decide)

theorem parse_iso_empty : parse_iso "" = none := by decide

theorem runDuration_isSome_iff (r : RunRecord) :
    (runDuration r).isSome ↔
      ∃ c u dc du, r.created_at = some c ∧ r.updated_at = some u ∧
        parse_iso c = some dc ∧ parse_iso u = some du ∧
        du.aware = dc.aware ∧ dc.seconds ≤ du.seconds := by
  rcases r with ⟨id, name, conc, ca, ua, hurl⟩
  simp only [runDuration]
  cases ca with
  | none => simp
  | some c =>
    cases ua with
    | none => simp
    | some u =>
      by_cases hc : c = ""
      · subst hc
        simp [parse_iso_empty]
      · by_cases hu : u = ""
        · subst hu
          simp [parse_iso_empty]
        · simp only [ne_eq, hc, not_false_eq_true, hu, and_self, if_true]
          cases hpu : parse_iso u with
          | none => simp [hpu]
          | some du =>
            cases hpc : parse_iso c with
            | none => simp [hpu, hpc]
            | some dc =>
              simp only [dtSub]
              by_cases haw : du.aware = dc.aware
              · by_cases hle : dc.seconds ≤ du.seconds
                · have h0 : (0 : Rat) ≤ du.seconds - dc.seconds := by linarith
                  simp [haw, h0, hpu, hpc, hle]
                · have h0 : ¬(0 : Rat) ≤ du.seconds - dc.seconds := by
                    intro h
                    exact hle (by linarith)
                  simp [haw, h0, hpu, hpc, hle]
              · simp [haw, hpu, hpc]

theorem runDuration_nonneg (r : RunRecord) (d : Rat)
    (h : runDuration r = some d) : 0 ≤ d := by
  rcases r with ⟨id, name, conc, ca, ua, hurl⟩
  cases ca with
  | none => simp [runDuration] at h
  | some c =>
    cases ua with
    | none => simp [runDuration] at h
    | some u =>
      simp only [runDuration] at h
      by_cases hcu : c ≠ "" ∧ u ≠ ""
      · rw [if_pos hcu] at h
        cases hpu : parse_iso u with
        | none => rw [hpu] at h; exact absurd h (by simp)
        | some du =>
          cases hpc : parse_iso c with
          | none => rw [hpu, hpc] at h; exact absurd h (by simp)
          | some dc =>
            rw [hpu, hpc] at h
            simp only [dtSub] at h
            by_cases haw : du.aware = dc.aware
            · by_cases h0 : (0 : Rat) ≤ du.seconds - dc.seconds
              · simp only [haw, if_true, h0, if_pos] at h
                simp at h
                linarith [h.symm ▸ h0]
              · simp [haw, h0] at h
            · simp [haw] at h
      · rw [if_neg hcu] at h
        exact absurd h (by simp)

theorem compute_metrics_durations (runs : List RunRecord) :
    (compute_metrics runs).avg_duration_seconds =
      if runs.filterMap runDuration = [] then none
      else some ((runs.filterMap runDuration).sum /
        ((runs.filterMap runDuration).length : Rat)) := by
  have hfold := foldl_stepRun runs ⟨0, 0, [], []⟩
  by_cases hnil : runs.filterMap runDuration = [] <;>
    simp [compute_metrics, hfold, hnil]

/-- C4 (amended): `avg_duration_seconds` is present iff at least one record
has both timestamps present and parsing successfully, with the two parsed
datetimes both naive or both aware, and updated ≥ created; when present it is
the arithmetic mean of exactly the per-run durations the loop keeps, which
are all non-negative; malformed or negative durations are skipped without
failing. (The original claim omits the same-awareness requirement: a naive
`created_at` with an aware `updated_at` parses fine but the subtraction
raises, so the pair is skipped.) -/
theorem claim_C4 (runs : List RunRecord) :
    ((compute_metrics runs).avg_duration_seconds.isSome ↔
      ∃ r ∈ runs, ∃ c u dc du,
        r.created_at = some c ∧ r.updated_at = some u ∧
        parse_iso c = some dc ∧ parse_iso u = some du ∧
        du.aware = dc.aware ∧ dc.seconds ≤ du.seconds) ∧
    (runs.filterMap runDuration ≠ [] →
      (compute_metrics runs).avg_duration_seconds =
        some ((runs.filterMap runDuration).sum /
          ((runs.filterMap runDuration).length : Rat))) ∧
    (runs.filterMap runDuration = [] →
      (compute_metrics runs).avg_duration_seconds = none) ∧
    (∀ r ∈ runs, ∀ d, runDuration r = some d → 0 ≤ d) := by
  have hd := compute_metrics_durations runs
  refine ⟨?_, ?_, ?_, ?_⟩
  · rw [hd]
    constructor
    · intro hs
      by_cases hnil : runs.filterMap runDuration = []
      · rw [if_pos hnil] at hs
        simp at hs
      · obtain ⟨d, hdm⟩ := List.exists_mem_of_ne_nil _ hnil
        obtain ⟨r, hr, hrd⟩ := List.mem_filterMap.mp hdm
        have hsome : (runDuration r).isSome := by rw [hrd]; rfl
        obtain ⟨c, u, dc, du, h⟩ := (runDuration_isSome_iff r).mp hsome
        exact ⟨r, hr, c, u, dc, du, h⟩
    · rintro ⟨r, hr, c, u, dc, du, h1, h2, h3, h4, h5, h6⟩
      have hsome : (runDuration r).isSome :=
        (runDuration_isSome_iff r).mpr ⟨c, u, dc, du, h1, h2, h3, h4, h5, h6⟩
      have hne : runs.filterMap runDuration ≠ [] := by
        intro hnil
        have hnone := List.filterMap_eq_nil_iff.mp hnil r hr
        rw [hnone] at hsome
        simp at hsome
      rw [if_neg hne]
      rfl
  · intro hne
    rw [hd, if_neg hne]
  · intro hnil
    rw [hd, if_pos hnil]
  · intro r _ d hdur
    exact runDuration_nonneg r d hdur

unseal Rat.mul Rat.add Rat.sub Rat.inv Rat.ofScientific in
/-- C4 counterexample: one record whose `created_at` is naive and whose
`updated_at` is timezone-aware. Both timestamps parse successfully and
updated ≥ created, so the claim as stated requires `avg_duration_seconds` to
be present, yet the code skips the pair (the subtraction raises `TypeError`)
and `avg_duration_seconds` is absent. -/
theorem claim_C4_counterexample :
    ((parse_iso "2024-01-01T00:00:00").isSome ∧
     (parse_iso "2024-01-01T00:00:30Z").isSome ∧
     ((parse_iso "2024-01-01T00:00:00").getD default).seconds ≤
       ((parse_iso "2024-01-01T00:00:30Z").getD default).seconds) ∧
    (compute_metrics
      [{ id := none, name := none, conclusion := none,
         created_at := some "2024-01-01T00:00:00",
         updated_at := some "2024-01-01T00:00:30Z",
         html_url := none }]).avg_duration_seconds = none := by
  decide

unseal Rat.mul Rat.add Rat.sub Rat.inv Rat.ofScientific in
/-- C4 witness: one well-formed 60-second run and one malformed run; the
mean is taken over the single valid duration. -/
theorem claim_C4_witness :
    ([{ id := some 1, name := some "a", conclusion := some "success",
        created_at := some "2024-01-01T00:00:00Z",
        updated_at := some "2024-01-01T00:01:00Z", html_url := none },
      { id := some 2, name := some "b", conclusion := some "failure",
        created_at := some "bad", updated_at := some "x",
        html_url := none }] : List RunRecord).filterMap runDuration ≠ [] ∧
    (compute_metrics
      [{ id := some 1, name := some "a", conclusion := some "success",
         created_at := some "2024-01-01T00:00:00Z",
         updated_at := some "2024-01-01T00:01:00Z", html_url := none },
       { id := some 2, name := some "b", conclusion := some "failure",
         created_at := some "bad", updated_at := some "x",
         html_url := none }]).avg_duration_seconds = some 60 := by
  refine ⟨by decide, ?_⟩
  have h := (claim_C4
    [{ id := some 1, name := some "a", conclusion := some "success",
       created_at := some "2024-01-01T00:00:00Z",
       updated_at := some "2024-01-01T00:01:00Z", html_url := none },
     { id := some 2, name := some "b", conclusion := some "failure",
       created_at := some "bad", updated_at := some "x",
       html_url := none }]).2.1 (by decide)
  rw [h]
  decide

/-- C2: `local_analysis` returns status "no-data" with the single
recommendation "No workflow runs found for the repository." when
`total_runs = 0`, skipping all other checks; otherwise, when `success_rate`
is defined, the status is "unhealthy" below 0.6, "degraded" in [0.6, 0.9),
and "healthy" at or above 0.9, each with its corresponding recommendation
first in the list, and the returned analysis embeds the input metrics
unchanged. -/
theorem claim_C2 (m : Metrics) :
    (local_analysis m).metrics = m ∧
    (m.total_runs = 0 → (local_analysis m).status = "no-data" ∧
      (local_analysis m).recommendations = [recNoData]) ∧
    (m.total_runs ≠ 0 → ∀ q, m.success_rate = some q →
      ((q < 0.6 → (local_analysis m).status = "unhealthy" ∧
          (local_analysis m).recommendations.head? = some recUnhealthy) ∧
       (0.6 ≤ q → q < 0.9 → (local_analysis m).status = "degraded" ∧
          (local_analysis m).recommendations.head? = some recDegraded) ∧
       (0.9 ≤ q → (local_analysis m).status = "healthy" ∧
          (local_analysis m).recommendations.head? = some recHealthy))) := by
  refine ⟨?_, ?_, ?_⟩
  · by_cases h0 : m.total_runs = 0 <;> simp [local_analysis, h0]
  · intro h0
    simp [local_analysis, h0]
  · intro h0 q hq
    refine ⟨?_, ?_, ?_⟩
    · intro hlt
      cases hd : m.avg_duration_seconds with
      | none => constructor <;> simp [local_analysis, h0, hq, hlt, hd]
      | some dd =>
        by_cases hgt : dd > 20 * 60 <;> constructor <;>
          simp [local_analysis, h0, hq, hlt, hd, hgt]
    · intro hge hlt9
      have hnlt : ¬q < 0.6 := not_lt.mpr hge
      cases hd : m.avg_duration_seconds with
      | none => constructor <;> simp [local_analysis, h0, hq, hnlt, hlt9, hd]
      | some dd =>
        by_cases hgt : dd > 20 * 60 <;> constructor <;>
          simp [local_analysis, h0, hq, hnlt, hlt9, hd, hgt]
    · intro hge9
      have hn6 : ¬q < 0.6 := not_lt.mpr (le_trans (by norm_num) hge9)
      have hn9 : ¬q < 0.9 := not_lt.mpr hge9
      cases hd : m.avg_duration_seconds with
      | none => constructor <;> simp [local_analysis, h0, hq, hn6, hn9, hd]
      | some dd =>
        by_cases hgt : dd > 20 * 60 <;> constructor <;>
          simp [local_analysis, h0, hq, hn6, hn9, hd, hgt]

/-- C2 witness: 10 runs with success rate 9/10 classify as healthy, with the
above-90-percent recommendation first. -/
theorem claim_C2_witness :
    (local_analysis
      { total_runs := 10, successes := 9, failures := 1,
        success_rate := some 0.9, avg_duration_seconds := none,
        recent_failures := [] }).status = "healthy" ∧
    (local_analysis
      { total_runs := 10, successes := 9, failures := 1,
        success_rate := some 0.9, avg_duration_seconds := none,
        recent_failures := [] }).recommendations.head? = some recHealthy := by
  exact ((claim_C2
      { total_runs := 10, successes := 9, failures := 1,
        success_rate := some 0.9, avg_duration_seconds := none,
        recent_failures := [] }).2.2 (by norm_num) 0.9 rfl).2.2 (by norm_num)

/-- C6: for metrics with runs, the duration check is additive and
independent: the status is unchanged by the presence of
`avg_duration_seconds`, and the recommendation list is the rate-based list
followed by the speed-up recommendation exactly when `avg_duration_seconds`
is defined and exceeds 1200 seconds; in that case the speed-up
recommendation is the last element. -/
theorem claim_C6 (m : Metrics) (h : m.total_runs ≠ 0) :
    (local_analysis m).status =
      (local_analysis { m with avg_duration_seconds := none }).status ∧
    (local_analysis m).recommendations =
      (local_analysis { m with avg_duration_seconds := none }).recommendations ++
        (match m.avg_duration_seconds with
         | some d => if d > 1200 then [recSlow] else []
         | none => []) ∧
    (∀ d, m.avg_duration_seconds = some d → d > 1200 →
      (local_analysis m).recommendations.getLast? = some recSlow) := by
  cases hd : m.avg_duration_seconds with
  | none =>
    refine ⟨?_, ?_, ?_⟩
    · simp [local_analysis, h, hd]
    · simp [local_analysis, h, hd]
    · intro d hcontra
      exact absurd hcontra (by simp)
  | some dd =>
    by_cases hgt : dd > 20 * 60
    · have hgt12 : dd > 1200 := by
        have : (20 : ℚ) * 60 = 1200 := by norm_num
        rwa [this] at hgt
      have hrec : (local_analysis m).recommendations =
          (local_analysis { m with avg_duration_seconds := none }).recommendations ++
            [recSlow] := by
        simp [local_analysis, h, hd, hgt]
      refine ⟨?_, ?_, ?_⟩
      · simp [local_analysis, h, hd, hgt]
      · rw [hrec]
        simp [hgt12]
      · intro d hdd hgt2
        rw [hrec]
        exact List.getLast?_concat _
    · have hn12 : ¬dd > 1200 := by
        have h2060 : (20 : ℚ) * 60 = 1200 := by norm_num
        rwa [h2060] at hgt
      refine ⟨?_, ?_, ?_⟩
      · simp [local_analysis, h, hd, hgt]
      · simp [local_analysis, h, hd, hgt, hn12]
      · intro d hdd hgt2
        cases hdd
        exact absurd hgt2 hn12

unseal Rat.mul Rat.add Rat.sub Rat.inv Rat.ofScientific in
/-- C6 witness: a healthy metrics value with a 1500-second average duration
collects both the healthy recommendation and the speed-up recommendation,
the latter last. -/
theorem claim_C6_witness :
    (local_analysis
      { total_runs := 10, successes := 9, failures := 1,
        success_rate := some 0.95, avg_duration_seconds := some 1500,
        recent_failures := [] }).recommendations.getLast? = some recSlow ∧
    (local_analysis
      { total_runs := 10, successes := 9, failures := 1,
        success_rate := some 0.95, avg_duration_seconds := some 1500,
        recent_failures := [] }).recommendations = [recHealthy, recSlow] := by
  have h := claim_C6
    { total_runs := 10, successes := 9, failures := 1,
      success_rate := some 0.95, avg_duration_seconds := some 1500,
      recent_failures := [] } (by norm_num)
  constructor
  · exact h.2.2 1500 rfl (by norm_num)
  · rw [h.2.1]
    decide

theorem pyTruthy_getD_ne (o : Option String) (h : pyTruthy o = true) :
    o.getD "" ≠ "" := by
  cases o with
  | none => simp [pyTruthy] at h
  | some s =>
    simp only [pyTruthy] at h
    by_cases hs : s = ""
    · rw [if_pos hs] at h
      exact absurd h (by simp)
    · simpa using hs

/-- The resolution chain of `main`, written as one nested conditional. -/
theorem resolve_mcp_url_eq (cli gh generic disc : Option String) :
    resolve_mcp_url cli gh generic disc =
      if pyTruthy cli then cli.getD ""
      else if pyTruthy gh then gh.getD ""
      else if pyTruthy generic then generic.getD ""
      else if pyTruthy disc then disc.getD ""
      else defaultMcpUrl := by
  unfold resolve_mcp_url pyOr
  by_cases hc : pyTruthy cli <;> by_cases hg : pyTruthy gh <;>
    by_cases hgen : pyTruthy generic <;> by_cases hd : pyTruthy disc <;>
      simp [hc, hg, hgen, hd]

/-- C3: endpoint resolution follows the precedence CLI value, then the
GitHub-specific environment variable, then the generic environment variable,
then repository discovery, then the hardcoded default; the first truthy
(present and non-empty) source wins, the function is total and
deterministic, and the result is always a non-empty URL string. -/
theorem claim_C3 (cli gh generic disc : Option String) :
    (pyTruthy cli = true →
      resolve_mcp_url cli gh generic disc = cli.getD "") ∧
    (pyTruthy cli = false → pyTruthy gh = true →
      resolve_mcp_url cli gh generic disc = gh.getD "") ∧
    (pyTruthy cli = false → pyTruthy gh = false → pyTruthy generic = true →
      resolve_mcp_url cli gh generic disc = generic.getD "") ∧
    (pyTruthy cli = false → pyTruthy gh = false → pyTruthy generic = false →
      pyTruthy disc = true →
      resolve_mcp_url cli gh generic disc = disc.getD "") ∧
    (pyTruthy cli = false → pyTruthy gh = false → pyTruthy generic = false →
      pyTruthy disc = false →
      resolve_mcp_url cli gh generic disc = defaultMcpUrl) ∧
    resolve_mcp_url cli gh generic disc ≠ "" := by
  have he := resolve_mcp_url_eq cli gh generic disc
  refine ⟨?_, ?_, ?_, ?_, ?_, ?_⟩
  · intro hc
    rw [he, if_pos hc]
  · intro hc hg
    rw [he, if_neg (by simp [hc]), if_pos hg]
  · intro hc hg hgen
    rw [he, if_neg (by simp [hc]), if_neg (by simp [hg]), if_pos hgen]
  · intro hc hg hgen hd
    rw [he, if_neg (by simp [hc]), if_neg (by simp [hg]),
      if_neg (by simp [hgen]), if_pos hd]
  · intro hc hg hgen hd
    rw [he, if_neg (by simp [hc]), if_neg (by simp [hg]),
      if_neg (by simp [hgen]), if_neg (by simp [hd])]
  · rw [he]
    by_cases hc : pyTruthy cli
    · rw [if_pos hc]
      exact pyTruthy_getD_ne cli hc
    · rw [if_neg hc]
      by_cases hg : pyTruthy gh
      · rw [if_pos hg]
        exact pyTruthy_getD_ne gh hg
      · rw [if_neg hg]
        by_cases hgen : pyTruthy generic
        · rw [if_pos hgen]
          exact pyTruthy_getD_ne generic hgen
        · rw [if_neg hgen]
          by_cases hd : pyTruthy disc
          · rw [if_pos hd]
            exact pyTruthy_getD_ne disc hd
          · rw [if_neg hd]
            decide

/-- C3 witness: with all five sources populated with distinct values the CLI
value wins; removing each source in turn moves to the next one, down to the
hardcoded default. -/
theorem claim_C3_witness :
    resolve_mcp_url (some "http://cli") (some "http://gh") (some "http://env")
      (some "http://disc") = "http://cli" ∧
    resolve_mcp_url none (some "http://gh") (some "http://env")
      (some "http://disc") = "http://gh" ∧
    resolve_mcp_url none none (some "http://env") (some "http://disc") =
      "http://env" ∧
    resolve_mcp_url none none none (some "http://disc") = "http://disc" ∧
    resolve_mcp_url none none none none = defaultMcpUrl := by
  refine ⟨?_, ?_, ?_, ?_, ?_⟩
  · exact (claim_C3 (some "http://cli") (some "http://gh") (some "http://env")
      (some "http://disc")).1 (by decide)
  · exact (claim_C3 none (some "http://gh") (some "http://env")
      (some "http://disc")).2.1 rfl (by decide)
  · exact (claim_C3 none none (some "http://env")
      (some "http://disc")).2.2.1 rfl rfl (by decide)
  · exact (claim_C3 none none none
      (some "http://disc")).2.2.2.1 rfl rfl rfl (by decide)
  · exact (claim_C3 none none none none).2.2.2.2.1 rfl rfl rfl rfl

/-- C10: when the CLI value is absent or empty, both environment overrides
are unset or empty, and repository discovery yields no URL (a raised
exception included, which `main` swallows), the resolved base URL is exactly
"http://127.0.0.1:8080". -/
theorem claim_C10 (cli gh generic disc : Option String)
    (h1 : pyTruthy cli = false) (h2 : pyTruthy gh = false)
    (h3 : pyTruthy generic = false) (h4 : pyTruthy disc = false) :
    resolve_mcp_url cli gh generic disc = "http://127.0.0.1:8080" := by
  rw [resolve_mcp_url_eq, if_neg (by simp [h1]), if_neg (by simp [h2]),
    if_neg (by simp [h3]), if_neg (by simp [h4])]
  rfl

/-- C10 witness: an absent CLI value, one unset and one empty environment
variable, and an empty discovery result resolve to the default. -/
theorem claim_C10_witness :
    resolve_mcp_url none (some "") none (some "") = "http://127.0.0.1:8080" :=
  claim_C10 none (some "") none (some "") rfl (by decide) rfl (by decide)

/-- C7: repository discovery always issues the authenticated Contents-API
fetch first; the unauthenticated raw fetch is issued exactly when the first
attempt yields no URL; a URL produced by either attempt is returned; and
when both attempts fail (a network error on each fetch included) the result
is `none` — the function is total, so no failure aborts the run. -/
theorem claim_C7 (env : DiscoveryEnv) :
    (discover_mcp_from_repo env).2.head? = some "contents" ∧
    ("raw" ∈ (discover_mcp_from_repo env).2 ↔ contentsAttempt env = none) ∧
    (∀ mcp, contentsAttempt env = some mcp →
      (discover_mcp_from_repo env).1 = some mcp) ∧
    (contentsAttempt env = none →
      (discover_mcp_from_repo env).1 = rawAttempt env) ∧
    (env.contentsResult = Except.error () → env.rawResult = Except.error () →
      (discover_mcp_from_repo env).1 = none) := by
  cases h : contentsAttempt env with
  | some mcp =>
    refine ⟨by simp [discover_mcp_from_repo, h], ?_, ?_, ?_, ?_⟩
    · simp [discover_mcp_from_repo, h]
    · intro m hm
      cases hm
      simp [discover_mcp_from_repo, h]
    · intro hc
      exact absurd hc (by simp)
    · intro hce _
      rw [contentsAttempt, hce] at h
      exact absurd h (by simp)
  | none =>
    refine ⟨by simp [discover_mcp_from_repo, h], ?_, ?_, ?_, ?_⟩
    · simp [discover_mcp_from_repo, h]
    · intro m hm
      exact absurd hm (by simp)
    · intro _
      simp [discover_mcp_from_repo, h]
    · intro hce hre
      have hraw : rawAttempt env = none := by rw [rawAttempt, hre]
      simp [discover_mcp_from_repo, h, hraw]

/-- C7 witness: an environment whose Contents-API fetch raises and whose raw
fetch returns a 200 with a parseable config; discovery falls back to the raw
fetch and returns its URL. -/
theorem claim_C7_witness :
    contentsAttempt
      { contentsResult := Except.error (),
        rawResult := Except.ok { status := 200, body := "cfg" },
        jsonParse := fun s =>
          if s = "cfg" then
            Except.ok (Json.obj [("mcp_url", Json.str "http://x")])
          else Except.error (),
        b64decode := fun _ => Except.error () } = none ∧
    (discover_mcp_from_repo
      { contentsResult := Except.error (),
        rawResult := Except.ok { status := 200, body := "cfg" },
        jsonParse := fun s =>
          if s = "cfg" then
            Except.ok (Json.obj [("mcp_url", Json.str "http://x")])
          else Except.error (),
        b64decode := fun _ => Except.error () }).1 =
      some (Json.str "http://x") := by
  constructor
  · rfl
  · have h := (claim_C7
      { contentsResult := Except.error (),
        rawResult := Except.ok { status := 200, body := "cfg" },
        jsonParse := fun s =>
          if s = "cfg" then
            Except.ok (Json.obj [("mcp_url", Json.str "http://x")])
          else Except.error (),
        b64decode := fun _ => Except.error () }).2.2.2.1 rfl
    rw [h]
    rfl

theorem trySendGo_none (env : ForwardEnv) (base : String) (l : List String)
    (h : ∀ suf ∈ l, ok200 env (rstripSlash base ++ suf) = false) :
    trySendGo env base l =
      (none, l.map (fun suf => rstripSlash base ++ suf)) := by
  induction l with
  | nil => simp [trySendGo]
  | cons suf rest ih =>
    have hhead : ok200 env (rstripSlash base ++ suf) = false := h suf (by simp)
    have htail := ih (fun s hs => h s (by simp [hs]))
    cases hp : env.post (rstripSlash base ++ suf) with
    | error e =>
      simp [trySendGo, hp, htail]
    | ok resp =>
      have hne : ¬resp.status = 200 := by
        simp [ok200, hp] at hhead
        exact hhead
      simp [trySendGo, hp, hne, htail]

theorem trySendGo_first (env : ForwardEnv) (base : String) :
    ∀ (l : List String) (k : Nat), k < l.length →
    (∀ e ∈ (l.map (fun suf => rstripSlash base ++ suf)).take k,
      ok200 env e = false) →
    ok200 env ((l.map (fun suf => rstripSlash base ++ suf)).getD k "") = true →
    trySendGo env base l =
      (postBody env ((l.map (fun suf => rstripSlash base ++ suf)).getD k ""),
       (l.map (fun suf => rstripSlash base ++ suf)).take (k + 1)) := by
  intro l
  induction l with
  | nil =>
    intro k hk
    simp at hk
  | cons suf rest ih =>
    intro k hk hprev hok
    cases k with
    | zero =>
      simp only [List.map_cons, List.getD_cons_zero] at hok ⊢
      cases hp : env.post (rstripSlash base ++ suf) with
      | error e =>
        rw [ok200, hp] at hok
        exact absurd hok (by simp)
      | ok resp =>
        have h200 : resp.status = 200 := by
          simp [ok200, hp] at hok
          exact hok
        simp [trySendGo, hp, h200, postBody, List.take_succ_cons,
          List.take_zero]
    | succ k2 =>
      have hhead : ok200 env (rstripSlash base ++ suf) = false := by
        apply hprev
        simp [List.take_succ_cons]
      have hok2 : ok200 env
          ((rest.map (fun suf => rstripSlash base ++ suf)).getD k2 "") = true := by
        simpa [List.getD_cons_succ] using hok
      have hprev2 : ∀ e ∈ (rest.map (fun suf => rstripSlash base ++ suf)).take k2,
          ok200 env e = false := by
        intro e he
        apply hprev
        simp [List.take_succ_cons]
        exact Or.inr he
      have hrec := ih k2 (by simpa using hk) hprev2 hok2
      cases hp : env.post (rstripSlash base ++ suf) with
      | error e =>
        simp [trySendGo, hp, hrec, List.getD_cons_succ, List.take_succ_cons]
      | ok resp =>
        have hne : ¬resp.status = 200 := by
          simp [ok200, hp] at hhead
          exact hhead
        simp [trySendGo, hp, hne, hrec, List.getD_cons_succ,
          List.take_succ_cons]

/-- C8: the forwarder tries the fixed suffix list "/predict", "/analyze",
"/v1/predict", "/mcp/predict", "" (the last candidate being the base URL
itself, trailing slashes stripped); when no candidate returns a 200 every
candidate is attempted and the result is `none`; and the first candidate
returning 200 is returned immediately — its parsed (or raw-wrapped) body —
with exactly the first k+1 candidates attempted and none after it. -/
theorem claim_C8 (env : ForwardEnv) (base : String) :
    mcp_candidates = ["/predict", "/analyze", "/v1/predict", "/mcp/predict", ""] ∧
    (mcp_candidates.map (fun suf => rstripSlash base ++ suf)).getLast? =
      some (rstripSlash base ++ "") ∧
    ((∀ suf ∈ mcp_candidates, ok200 env (rstripSlash base ++ suf) = false) →
      try_send_to_mcp env base =
        (none, mcp_candidates.map (fun suf => rstripSlash base ++ suf))) ∧
    (∀ k, k < mcp_candidates.length →
      (∀ e ∈ (mcp_candidates.map (fun suf => rstripSlash base ++ suf)).take k,
        ok200 env e = false) →
      ok200 env
        ((mcp_candidates.map (fun suf => rstripSlash base ++ suf)).getD k "") =
        true →
      try_send_to_mcp env base =
        (postBody env
          ((mcp_candidates.map (fun suf => rstripSlash base ++ suf)).getD k ""),
         (mcp_candidates.map (fun suf => rstripSlash base ++ suf)).take (k + 1))) := by
  refine ⟨rfl, by simp [mcp_candidates], ?_, ?_⟩
  · intro hall
    exact trySendGo_none env base mcp_candidates hall
  · intro k hk hprev hok
    exact trySendGo_first env base mcp_candidates k hk hprev hok

/-- C8 witness: an environment where only the second candidate endpoint
returns 200 (with a non-JSON body): exactly two attempts are made and the
raw-wrapped body of the second response is returned. -/
theorem claim_C8_witness :
    try_send_to_mcp
      { post := fun e =>
          if e = "http://h/analyze" then
            Except.ok { status := 200, body := "BODY" }
          else Except.error (),
        jsonParse := fun _ => Except.error () } "http://h" =
      (some (Json.obj [("raw_text", Json.str "BODY")]),
       ["http://h/predict", "http://h/analyze"]) := by
  have h := (claim_C8
    { post := fun e =>
        if e = "http://h/analyze" then
          Except.ok { status := 200, body := "BODY" }
        else Except.error (),
      jsonParse := fun _ => Except.error () } "http://h").2.2.2 1
    (by decide) (by decide) (by decide)
  rw [h]
  rfl

theorem mock_do_POST_error_iff (path : String) (parsed : Except String Json)
    (p : String) (hok : urlparsePath path = Except.ok p)
    (hp : p ∈ mock_paths) :
    mock_do_POST path parsed = Except.error () ↔
      benignPayload (payloadOf parsed) = false := by
  unfold mock_do_POST benignPayload
  simp only [hok]
  rw [if_pos hp]
  cases hj : payloadOf parsed with
  | obj fs =>
    cases hm : lookupField fs "metrics" with
    | none => simp [metricsTotal, predictionOf, hm]
    | some m =>
      by_cases ht : jsonTruthy m
      · cases m with
        | obj ms =>
          cases htr : lookupField ms "total_runs" with
          | none => simp [metricsTotal, predictionOf, hm, ht, htr]
          | some t =>
            by_cases htt : jsonTruthy t
            · cases t <;>
                simp [metricsTotal, predictionOf, hm, ht, htr, htt]
            · simp [metricsTotal, predictionOf, hm, ht, htr, htt]
        | null => simp [jsonTruthy] at ht
        | bool b => simp [metricsTotal, predictionOf, hm, ht]
        | num n => simp [metricsTotal, predictionOf, hm, ht]
        | str s => simp [metricsTotal, predictionOf, hm, ht]
        | arr xs => simp [metricsTotal, predictionOf, hm, ht]
      · simp [metricsTotal, predictionOf, hm, ht]
  | null => simp [metricsTotal, predictionOf]
  | bool b => simp [metricsTotal, predictionOf]
  | num n => simp [metricsTotal, predictionOf]
  | str s => simp [metricsTotal, predictionOf]
  | arr xs => simp [metricsTotal, predictionOf]

/-- C9 (amended): writing p for the path component `urlparse` extracts from
the request target (parameters split off the last segment included): when p
is a candidate path or the root path, the mock server reaches its 200
response exactly when the decoded payload is benign — its `metrics` field,
when truthy, is an object whose `total_runs` field, when truthy, is a number
or boolean (otherwise the handler raises an unhandled exception and sends no
response); when `metrics` is absent the 200 body echoes null with prediction
"no-data"; when `metrics.total_runs` is the number n the 200 body echoes n
with prediction "no-issues" iff n > 0; when p is any other path the response
is a 404; a target on which `urlparse` itself raises (mismatched brackets in
the authority) crashes the handler; and every GET gets the 200 liveness
body. -/
theorem claim_C9 (path : String) (parsed : Except String Json) :
    (∀ p, urlparsePath path = Except.ok p → p ∉ mock_paths →
      mock_do_POST path parsed =
        Except.ok (404, Json.obj [("error", Json.str "unknown endpoint")])) ∧
    (urlparsePath path = Except.error () →
      mock_do_POST path parsed = Except.error ()) ∧
    (∀ p, urlparsePath path = Except.ok p → p ∈ mock_paths →
      ((mock_do_POST path parsed = Except.error () ↔
          benignPayload (payloadOf parsed) = false) ∧
       (∀ fs, payloadOf parsed = Json.obj fs →
         lookupField fs "metrics" = none →
         mock_do_POST path parsed =
           Except.ok (200, mockOkBody none "no-data")) ∧
       (∀ fs ms n, payloadOf parsed = Json.obj fs →
         lookupField fs "metrics" = some (Json.obj ms) →
         lookupField ms "total_runs" = some (Json.num n) →
         mock_do_POST path parsed =
           Except.ok (200, mockOkBody (some (Json.num n))
             (if 0 < n then "no-issues" else "no-data"))))) ∧
    mock_do_GET path = (200, Json.obj [("info", Json.str "mcp-mock running")]) := by
  refine ⟨?_, ?_, ?_, rfl⟩
  · intro p hok hp
    unfold mock_do_POST
    simp only [hok]
    rw [if_neg hp]
  · intro herr
    unfold mock_do_POST
    simp only [herr]
  · intro p hok hp
    refine ⟨mock_do_POST_error_iff path parsed p hok hp, ?_, ?_⟩
    · intro fs hfs hm
      unfold mock_do_POST
      simp only [hok]
      rw [if_pos hp, hfs]
      simp [metricsTotal, predictionOf, hm, mockOkBody]
    · intro fs ms n hfs hm htr
      unfold mock_do_POST
      simp only [hok]
      rw [if_pos hp, hfs]
      cases ms with
      | nil => exact absurd htr (by simp [lookupField])
      | cons q qs =>
        by_cases hn : n = 0
        · subst hn
          simp [metricsTotal, predictionOf, hm, htr, jsonTruthy, mockOkBody]
        · by_cases hpos : 0 < n
          · simp [metricsTotal, predictionOf, hm, htr, jsonTruthy, hn, hpos,
              mockOkBody]
          · simp [metricsTotal, predictionOf, hm, htr, jsonTruthy, hn, hpos,
              mockOkBody]

/-- C9 counterexample: a POST to "/predict" whose payload has a truthy
non-object `metrics` field makes the handler raise `AttributeError` instead
of responding 200, contradicting the claim for that request. -/
theorem claim_C9_counterexample :
    mock_do_POST "/predict"
      (Except.ok (Json.obj [("metrics", Json.num 5)])) = Except.error () := by
  rfl

/-- C9 witness: the spec scenario — a payload with metrics.total_runs = 3 on
"/predict" gets a 200 echoing 3 with prediction "no-issues" — and the same
for the target "/predict;x", whose urlparse path component is "/predict". -/
theorem claim_C9_witness :
    mock_do_POST "/predict"
      (Except.ok (Json.obj [("metrics",
        Json.obj [("total_runs", Json.num 3)])])) =
      Except.ok (200, Json.obj [("status", Json.str "ok"),
        ("analysis", Json.obj [("received_total_runs", Json.num 3),
          ("prediction", Json.str "no-issues")])]) ∧
    mock_do_POST "/predict;x"
      (Except.ok (Json.obj [("metrics",
        Json.obj [("total_runs", Json.num 3)])])) =
      Except.ok (200, Json.obj [("status", Json.str "ok"),
        ("analysis", Json.obj [("received_total_runs", Json.num 3),
          ("prediction", Json.str "no-issues")])]) := by
  constructor
  · have h := ((claim_C9 "/predict"
      (Except.ok (Json.obj [("metrics",
        Json.obj [("total_runs", Json.num 3)])]))).2.2.1 "/predict"
      (by rfl) (by decide)).2.2 [("metrics", Json.obj [("total_runs", Json.num 3)])]
      [("total_runs", Json.num 3)] 3 rfl rfl rfl
    rw [h]
    rfl
  · have h := ((claim_C9 "/predict;x"
      (Except.ok (Json.obj [("metrics",
        Json.obj [("total_runs", Json.num 3)])]))).2.2.1 "/predict"
      (by rfl) (by decide)).2.2 [("metrics", Json.obj [("total_runs", Json.num 3)])]
      [("total_runs", Json.num 3)] 3 rfl rfl rfl
    rw [h]
    rfl
